import Mathlib

/-!
Verification of the font-characterization engine of the font-validator-app
repository (`src/lib/fontAnalysis/fontValidator.js`).

The JavaScript source is shallowly embedded below.  JavaScript numbers are
modelled as exact rationals; the value `NaN` (which arises from `parseFloat`
on a non-numeric string and then propagates through arithmetic) is modelled
by `Option ℚ` with `none` playing the role of `NaN`.  `Math.round x` is
`⌊x + 1/2⌋` (round half towards positive infinity, exactly ECMAScript's
behaviour on finite values), and `toFixed` rounding picks the larger
candidate on ties, which is the same operation.  The float literal `0.7`
used for coverage thresholds is modelled by the exact rational `7/10`.
Strings are Lean `String`s; `String.prototype.includes` is substring search.
-/

namespace FontValidator

/-- JS number that may be `NaN`: `none` models `NaN`, `some q` a finite value. -/
abbrev JN := Option ℚ

/-- Addition on JS numbers; `NaN` propagates. -/
def jnAdd (a b : JN) : JN :=
  match a, b with
  | some x, some y => some (x + y)
  | _, _ => none

/-- Subtraction on JS numbers; `NaN` propagates. -/
def jnSub (a b : JN) : JN :=
  match a, b with
  | some x, some y => some (x - y)
  | _, _ => none

/-- Multiplication on JS numbers; `NaN` propagates. -/
def jnMul (a b : JN) : JN :=
  match a, b with
  | some x, some y => some (x * y)
  | _, _ => none

/-- Model of `Math.abs`; `NaN` propagates. -/
def jnAbs (a : JN) : JN := a.map (fun x => |x|)

/-- Model of `Math.round` on a finite value: round half towards positive infinity. -/
def jsRound (q : ℚ) : ℤ := ⌊q + 1/2⌋

/-- Model of `Math.round`; `NaN` propagates. -/
def jnRound (a : JN) : JN := a.map (fun x => ((jsRound x : ℤ) : ℚ))

/-- Truncation towards zero of a rational, as JS remainder computation uses. -/
def jsTrunc (q : ℚ) : ℤ := q.num / q.den

/-- JS remainder `a % b`: `a - b * trunc(a / b)`; `NaN` propagates. -/
def jnMod (a : JN) (b : ℚ) : JN :=
  a.map (fun x => x - b * ((jsTrunc (x / b) : ℤ) : ℚ))

/-- Strict `>` comparison on JS numbers: any comparison with `NaN` is false. -/
def jnGtB (a b : JN) : Bool :=
  match a, b with
  | some x, some y => decide (x > y)
  | _, _ => false

/-- Strict `<` comparison on JS numbers: any comparison with `NaN` is false. -/
def jnLtB (a b : JN) : Bool :=
  match a, b with
  | some x, some y => decide (x < y)
  | _, _ => false

/-- JS truthiness of a possibly-missing integer field: present and non-zero. -/
def jsTruthyInt (o : Option ℤ) : Bool :=
  match o with
  | some v => v != 0
  | none => false

/-- The `clamp` helper of `analyzeFontPersonality`:
`Math.max(0, Math.min(100, Math.round(value)))`.  On `NaN` both `Math.min`
and `Math.max` return `NaN`, so `NaN` propagates. -/
def clampJN (v : JN) : JN :=
  v.map (fun q => ((max 0 (min 100 (jsRound q)) : ℤ) : ℚ))

/-- One decimal-digit run of `parseFloat`: accumulated value, number of
digits consumed, rest of the input. -/
def parseDigitsAux : List Char → ℕ → ℕ → ℕ × ℕ × List Char
  | [], v, n => (v, n, [])
  | c :: cs, v, n =>
    if c.isDigit then parseDigitsAux cs (v * 10 + (c.toNat - 48)) (n + 1)
    else (v, n, c :: cs)

/-- Model of JS `parseFloat` on the decimal grammar `[+-]?digits[.digits]?`
(leading spaces skipped, trailing garbage ignored); `none` models `NaN`.
Exponents and `Infinity` literals never occur in this code base's inputs and
are not modelled. -/
def parseFloat (s : String) : Option ℚ :=
  let cs := s.toList.dropWhile (fun c => c = ' ')
  let signRest : ℚ × List Char :=
    match cs with
    | c :: rest =>
      if c = '-' then (-1, rest)
      else if c = '+' then (1, rest) else (1, cs)
    | [] => (1, [])
  let sign := signRest.1
  let afterSign := signRest.2
  let ipRes := parseDigitsAux afterSign 0 0
  let ip := ipRes.1
  let ic := ipRes.2.1
  match ipRes.2.2 with
  | c :: rest =>
    if c = '.' then
      let fpRes := parseDigitsAux rest 0 0
      let fp := fpRes.1
      let fc := fpRes.2.1
      if ic = 0 ∧ fc = 0 then none
      else some (sign * ((ip : ℚ) + (fp : ℚ) / ((10 : ℚ) ^ fc)))
    else if ic = 0 then none else some (sign * (ip : ℚ))
  | [] => if ic = 0 then none else some (sign * (ip : ℚ))

/-- Two-digit zero padding used by the `toFixed(2)` model. -/
def pad2 (k : ℕ) : String :=
  if k < 10 then "0" ++ toString k else toString k

/-- Model of `Number.prototype.toFixed(2)`: round the value to the nearest
hundredth (ties towards the larger candidate, as specified by ECMAScript)
and print with exactly two decimals. -/
def toFixed2 (q : ℚ) : String :=
  let n : ℤ := jsRound (q * 100)
  if n < 0 then "-" ++ toString (n.natAbs / 100) ++ "." ++ pad2 (n.natAbs % 100)
  else toString (n.toNat / 100) ++ "." ++ pad2 (n.toNat % 100)

/-- Digit string of a non-negative multiple of one tenth (`k` tenths), as JS
prints the number `k/10`: no decimal point when it is an integer. -/
def fmtTenths (k : ℕ) : String :=
  if k % 10 = 0 then toString (k / 10)
  else toString (k / 10) ++ "." ++ toString (k % 10)

/-- Does `hay` start with `needle`? -/
def listStartsWith {α : Type} [DecidableEq α] : List α → List α → Bool
  | [], _ => true
  | _ :: _, [] => false
  | a :: as, b :: bs => a = b && listStartsWith as bs

/-- Is `needle` a contiguous sublist of `hay`? -/
def listHasInfix {α : Type} [DecidableEq α] (needle : List α) : List α → Bool
  | [] => listStartsWith needle []
  | c :: rest => listStartsWith needle (c :: rest) || listHasInfix needle rest

/-- Model of `String.prototype.includes`: substring containment. -/
def jsIncludes (s sub : String) : Bool :=
  listHasInfix sub.toList s.toList

/-- Model of `String.prototype.toLowerCase`, character by character. -/
def jsToLower (s : String) : String :=
  String.mk (s.toList.map Char.toLower)

/-- First-occurrence deduplication, the order `[...new Set(xs)]` produces. -/
def jsSetDedupAux {α : Type} [DecidableEq α] : List α → List α → List α
  | [], _ => []
  | x :: xs, seen =>
    if x ∈ seen then jsSetDedupAux xs seen
    else x :: jsSetDedupAux xs (x :: seen)

/-- Model of `[...new Set(xs)]`: keep the first occurrence of every element. -/
def jsSetDedup {α : Type} [DecidableEq α] (l : List α) : List α :=
  jsSetDedupAux l []

theorem jsSetDedupAux_sound {α : Type} [DecidableEq α] :
    ∀ (l seen : List α), (jsSetDedupAux l seen).Nodup ∧
      ∀ a ∈ jsSetDedupAux l seen, a ∉ seen := by
  intro l
  induction l with
  | nil => intro seen; simp [jsSetDedupAux]
  | cons x xs ih =>
    intro seen
    by_cases hx : x ∈ seen
    · simpa [jsSetDedupAux, hx] using ih seen
    · have h := ih (x :: seen)
      refine ⟨?_, ?_⟩
      · simp only [jsSetDedupAux, hx, if_false]
        refine List.nodup_cons.mpr ⟨?_, h.1⟩
        intro hmem
        exact (h.2 x hmem) (List.mem_cons_self x seen)
      · intro a ha
        simp only [jsSetDedupAux, hx, if_false, List.mem_cons] at ha
        rcases ha with rfl | ha
        · exact hx
        · intro hseen
          exact (h.2 a ha) (List.mem_cons_of_mem x hseen)

theorem jsSetDedup_nodup {α : Type} [DecidableEq α] (l : List α) :
    (jsSetDedup l).Nodup :=
  (jsSetDedupAux_sound l []).1

/-! ## Data model of the parsed font (the external parser's surface) -/

/-- The `OS/2` table fields the engine reads.  A `none` field models a field
that is absent (`undefined` in JS); JS truthiness tests treat `0` and
`undefined` alike. -/
structure OS2Table where
  sxHeight : Option ℤ := none
  sCapHeight : Option ℤ := none
  sTypoAscender : Option ℤ := none
  sTypoDescender : Option ℤ := none
  usWeightClass : Option ℤ := none
  usWidthClass : Option ℤ := none
  panose : Option (List ℕ) := none
  sFamilyClass : Option ℤ := none

/-- The `hhea` table fields the engine reads. -/
structure HheaTable where
  ascender : ℤ
  descender : ℤ

/-- The `post` table fields the engine reads. -/
structure PostTable where
  isFixedPitch : Option ℤ := none

/-- The `name` table entries the engine reads (each `.en` entry, possibly
absent). -/
structure NameTable where
  fontFamily : Option String := none
  fullName : Option String := none
  postScriptName : Option String := none
  fontSubfamily : Option String := none
  version : Option String := none
  copyright : Option String := none
  manufacturer : Option String := none

/-- Result of `font.charToGlyph(c)`: the lookup can throw (`err`), return a
falsy value (`missing`), or return a glyph with a name, an optional advance
width and a bounding-box `yMax`. -/
inductive GlyphRes where
  | err : GlyphRes
  | missing : GlyphRes
  | glyph (name : String) (advanceWidth : Option ℤ) (yMax : ℤ) : GlyphRes
deriving DecidableEq

/-- The parsed font handed to the engine by the external parser. -/
structure Font where
  unitsPerEm : ℚ
  os2 : Option OS2Table := none
  hhea : Option HheaTable := none
  post : Option PostTable := none
  names : NameTable := {}
  /-- Model of `font.glyphs.length`; `none` models the accessor throwing. -/
  glyphCount : Option ℕ := none
  /-- Character-to-glyph lookup, keyed by the probe string. -/
  charToGlyph : String → GlyphRes
  outlinesFormat : String := ""

/-- The fields of the uploaded `File` object that the engine copies over. -/
structure FileInfo where
  name : String
  size : ℤ
  type : String
  lastModified : ℤ

/-! ## Result records (the engine's output shape) -/

/-- The `metrics` record: four em measurements formatted as
`"D.DD em"` strings plus three categorical strings. -/
structure MetricsRec where
  xHeight : String
  capHeight : String
  ascender : String
  descender : String
  contrast : String
  strokeTerminals : String
  shape : String
deriving DecidableEq

/-- The `personality` record: six trait scores (JS numbers, `NaN` possible
in principle) plus the generated description. -/
structure Personality where
  formality : JN
  approachability : JN
  gentleness : JN
  sophistication : JN
  traditionality : JN
  playfulness : JN
  emotionalDescription : String
deriving DecidableEq

/-- The `recommendations` record; a list element `none` models the JS value
`undefined` (which out-of-range array indexing produces). -/
structure Recommendations where
  recommendedUses : List (Option String)
  notRecommendedUses : List (Option String)
  fontPairings : List (Option String)
deriving DecidableEq

/-- The `characterSet` record of five coverage descriptors. -/
structure CharacterSetInfo where
  latin : String
  numerals : String
  symbols : String
  punctuation : String
  languages : String
deriving DecidableEq

/-- The full per-font analysis result returned by `analyzeFontFile`. -/
structure FontAnalysisResult where
  name : String
  size : ℤ
  type : String
  lastModified : ℤ
  format : String
  version : String
  copyright : String
  manufacturer : String
  style : String
  metrics : MetricsRec
  personality : Personality
  recommendations : Recommendations
  characterSet : CharacterSetInfo
  weight : String
  width : String
deriving DecidableEq

/-! ## Component: format -/

/-- Model of `determineFontFormat` (fontValidator.js:84): map the parser's outline
format to a display name; an empty (falsy) format string becomes
`"Unknown"`. -/
def determineFontFormat (f : Font) : String :=
  if f.outlinesFormat = "truetype" then "TrueType"
  else if f.outlinesFormat = "cff" then "OpenType/CFF"
  else if f.outlinesFormat = "" then "Unknown" else f.outlinesFormat

/-! ## Component: style classifier -/

/-- The lower-cased concatenation `fontFamily + " " + fullName + " " +
postScriptName` that `determineFontStyle` scans for keywords. -/
def combinedStyleName (f : Font) : String :=
  jsToLower (f.names.fontFamily.getD ("")) ++ " " ++
    jsToLower (f.names.fullName.getD ("")) ++ " " ++
    jsToLower (f.names.postScriptName.getD (""))

/-- PANOSE family-type chain of `determineFontStyle` (fontValidator.js:135):
returns `none` when no PANOSE rule fires and evaluation falls through. -/
def stylePanose (o : OS2Table) : Option String :=
  match o.panose with
  | some p =>
    if p[0]? = some 3 then some "script"
    else if p[0]? = some 4 ∨ p[0]? = some 5 then some "decorative"
    else if p[0]? = some 2 then
      if p[1]? = some 11 ∨ p[1]? = some 0 then some "sans-serif"
      else
        match p[1]? with
        | some b => if 2 ≤ b ∧ b ≤ 10 then some "serif" else none
        | none => none
    else none
  | none => none

/-- IBM family-class chain of `determineFontStyle` (fontValidator.js:161):
the class id is `(sFamilyClass >> 8) & 0xFF`; `none` when the field is falsy
or no class matches. -/
def styleFamilyClass (o : OS2Table) : Option String :=
  match o.sFamilyClass with
  | some v =>
    if v = 0 then none
    else
      let classID : ℤ := (Int.fdiv v 256).emod 256
      if classID = 2 ∨ classID = 3 ∨ classID = 4 ∨ classID = 5 then some "serif"
      else if classID = 8 then some "sans-serif"
      else if classID = 9 ∨ classID = 10 then some "script"
      else if classID = 12 then some "decorative"
      else none
  | none => none

/-- Tail of `determineFontStyle`: the `post`-table fixed-pitch check and the
default. -/
def stylePost (f : Font) : String :=
  match f.post with
  | some p => if jsTruthyInt p.isFixedPitch then "monospace" else "sans-serif"
  | none => "sans-serif"

/-- Table-based part of `determineFontStyle` (everything after the name
heuristics). -/
def styleFromTables (f : Font) : String :=
  match f.os2 with
  | some o =>
    match stylePanose o with
    | some s => s
    | none =>
      if (match o.panose with
          | some p => p[3]? == some 9
          | none => false : Bool) then "monospace"
      else
        match styleFamilyClass o with
        | some s => s
        | none => stylePost f
  | none => stylePost f

/-- Model of `determineFontStyle` (fontValidator.js:99): name-keyword heuristics
first, then PANOSE, monospace flag, IBM class, `post` table, default
`sans-serif`. -/
def determineFontStyle (f : Font) : String :=
  let cn := combinedStyleName f
  if jsIncludes cn ("sans") && !jsIncludes cn ("serif") then "sans-serif"
  else if jsIncludes cn ("serif") && !jsIncludes cn ("sans") then "serif"
  else if jsIncludes cn ("script") || jsIncludes cn ("handwriting") ||
      jsIncludes cn ("cursive") || jsIncludes cn ("brush") ||
      jsIncludes cn ("calligraph") then "script"
  else if jsIncludes cn ("deco") || jsIncludes cn ("display") ||
      jsIncludes cn ("ornament") || jsIncludes cn ("fancy") ||
      jsIncludes cn ("comic") || jsIncludes cn ("grunge") then "decorative"
  else styleFromTables f

/-! ## Component: metric extractor -/

/-- Model of `estimateContrast` (fontValidator.js:272): bucket PANOSE stroke-variation
byte 7 into three contrast classes, defaulting to medium. -/
def estimateContrast (f : Font) : String :=
  match f.os2 with
  | some o =>
    match o.panose with
    | some p =>
      match p[7]? with
      | some sv =>
        if sv = 1 then "No Variation (1.0)"
        else if 2 ≤ sv ∧ sv ≤ 5 then "Medium (3.5)"
        else if 6 ≤ sv then "High (7.0)"
        else "Medium (3.5)"
      | none => "Medium (3.5)"
    | none => "Medium (3.5)"
  | none => "Medium (3.5)"

/-- Model of `determineStrokeTerminals` (fontValidator.js:298): bucket PANOSE stroke
terminal byte 8 into five classes, defaulting to rounded. -/
def determineStrokeTerminals (f : Font) : String :=
  match f.os2 with
  | some o =>
    match o.panose with
    | some p =>
      match p[8]? with
      | some st =>
        if st = 1 then "None"
        else if st = 2 ∨ st = 6 then "Rounded"
        else if st = 3 ∨ st = 7 then "Flared"
        else if st = 4 ∨ st = 8 then "Pointed"
        else if st = 5 then "Square"
        else "Rounded"
      | none => "Rounded"
    | none => "Rounded"
  | none => "Rounded"

/-- Model of `determineShape` (fontValidator.js:331): a rule chain over three metric
ratios, evaluated in fixed priority order. -/
def determineShape (xHeight capHeight ascender descender : ℚ) : String :=
  let xToCap := xHeight / capHeight
  let ascToCap := ascender / capHeight
  let descToCap := descender / capHeight
  if xToCap > 7/10 then "Large x-height, more open and readable"
  else if xToCap < 1/2 then "Small x-height, more elegant and traditional"
  else if ascToCap > 12/10 then "Tall ascenders, more distinctive and elegant"
  else if descToCap > 1/2 then "Deep descenders, more distinctive and elegant"
  else "Balanced proportions, versatile and readable"

/-- The x-height after the OS/2-table step of `calculateFontMetrics`: the
table value (normalized by units-per-em) when the field is truthy, else the
initial default `0.5`. -/
def xAfterTable (f : Font) : ℚ :=
  match f.os2 with
  | some o =>
    if jsTruthyInt o.sxHeight then ((o.sxHeight.getD 0 : ℤ) : ℚ) / f.unitsPerEm
    else 1/2
  | none => 1/2

/-- The cap height after the OS/2-table step (default `0.7`). -/
def capAfterTable (f : Font) : ℚ :=
  match f.os2 with
  | some o =>
    if jsTruthyInt o.sCapHeight then ((o.sCapHeight.getD 0 : ℤ) : ℚ) / f.unitsPerEm
    else 7/10
  | none => 7/10

/-- The ascender after the OS/2-table step (default `0.8`). -/
def ascAfterTable (f : Font) : ℚ :=
  match f.os2 with
  | some o =>
    if jsTruthyInt o.sTypoAscender then ((o.sTypoAscender.getD 0 : ℤ) : ℚ) / f.unitsPerEm
    else 8/10
  | none => 8/10

/-- The descender after the OS/2-table step, stored as a positive magnitude
(default `0.2`). -/
def descAfterTable (f : Font) : ℚ :=
  match f.os2 with
  | some o =>
    if jsTruthyInt o.sTypoDescender then |((o.sTypoDescender.getD 0 : ℤ) : ℚ)| / f.unitsPerEm
    else 2/10

  | none => 2/10

/-- The glyph bounding-box fallback step of `calculateFontMetrics` for a
probe character: only taken when the current value is exactly `0`.  The
`err` arm models a thrown lookup aborting the analysis; it is provably
unreachable (see the C5 theorem) because the current value is never `0`. -/
def glyphFallback (f : Font) (probe : String) (cur : ℚ) : ℚ :=
  if cur = 0 then
    match f.charToGlyph probe with
    | .glyph _ aw ym => if jsTruthyInt aw then (ym : ℚ) / f.unitsPerEm else cur
    | .missing => cur
    | .err => cur
  else cur

/-- The `hhea` ascender fallback step: only taken when the current value is
exactly `0`. -/
def hheaAscFallback (f : Font) (cur : ℚ) : ℚ :=
  if cur = 0 then
    match f.hhea with
    | some hh => (hh.ascender : ℚ) / f.unitsPerEm
    | none => cur
  else cur

/-- The `hhea` descender fallback step: only taken when the current value is
exactly `0`. -/
def hheaDescFallback (f : Font) (cur : ℚ) : ℚ :=
  if cur = 0 then
    match f.hhea with
    | some hh => |(hh.descender : ℚ)| / f.unitsPerEm
    | none => cur
  else cur

/-- Model of `calculateFontMetrics` (fontValidator.js:191): OS/2 values (or 0.5 /
0.7 / 0.8 / 0.2 defaults), the `=== 0`-guarded glyph and `hhea` fallbacks,
then formatting as `"D.DD em"` strings together with the contrast, terminal
and shape classifications. -/
def calculateFontMetrics (f : Font) : MetricsRec :=
  let xH := glyphFallback f ("x") (xAfterTable f)
  let capH := glyphFallback f ("H") (capAfterTable f)
  let asc := hheaAscFallback f (ascAfterTable f)
  let desc := hheaDescFallback f (descAfterTable f)
  { xHeight := toFixed2 xH ++ " em"
    capHeight := toFixed2 capH ++ " em"
    ascender := toFixed2 asc ++ " em"
    descender := toFixed2 desc ++ " em"
    contrast := estimateContrast f
    strokeTerminals := determineStrokeTerminals f
    shape := determineShape xH capH asc desc }

/-! ## Component: personality scorer -/

/-- The six pre-jitter trait values of `analyzeFontPersonality`
(fontValidator.js:361-456): 50 plus the style-, x-height-, contrast-,
terminal- and shape-keyed deltas, in source order
(formality, approachability, gentleness, sophistication, traditionality,
playfulness). -/
def personalityBase (fontStyle : String) (m : MetricsRec) :
    ℚ × ℚ × ℚ × ℚ × ℚ × ℚ :=
  let s : ℚ × ℚ × ℚ × ℚ × ℚ × ℚ :=
    if fontStyle = "serif" then (75, 50, 50, 70, 75, 40)
    else if fontStyle = "sans-serif" then (50, 65, 60, 50, 40, 50)
    else if fontStyle = "script" then (60, 50, 75, 65, 50, 70)
    else if fontStyle = "decorative" then (35, 50, 50, 50, 30, 80)
    else if fontStyle = "monospace" then (65, 40, 50, 50, 55, 35)
    else (50, 50, 50, 50, 50, 50)
  let x :=
    match parseFloat m.xHeight with
    | some xh =>
      if xh > 6/10 then (s.1 - 5, s.2.1 + 10, s.2.2.1, s.2.2.2.1, s.2.2.2.2.1, s.2.2.2.2.2)
      else if xh < 4/10 then (s.1 + 5, s.2.1, s.2.2.1, s.2.2.2.1 + 10, s.2.2.2.2.1, s.2.2.2.2.2)
      else s
    | none => s
  let c :=
    if jsIncludes m.contrast ("High") then
      (x.1, x.2.1 - 5, x.2.2.1, x.2.2.2.1 + 15, x.2.2.2.2.1 + 10, x.2.2.2.2.2)
    else if jsIncludes m.contrast ("No") then
      (x.1, x.2.1 + 10, x.2.2.1, x.2.2.2.1, x.2.2.2.2.1 - 10, x.2.2.2.2.2)
    else if jsIncludes m.contrast ("Medium") then
      (x.1, x.2.1 + 5, x.2.2.1, x.2.2.2.1 + 5, x.2.2.2.2.1, x.2.2.2.2.2)
    else x
  let t :=
    if m.strokeTerminals = "Rounded" then
      (c.1, c.2.1 + 10, c.2.2.1 + 15, c.2.2.2.1, c.2.2.2.2.1, c.2.2.2.2.2 + 5)
    else if m.strokeTerminals = "Pointed" then
      (c.1 + 5, c.2.1, c.2.2.1 - 10, c.2.2.2.1 + 10, c.2.2.2.2.1, c.2.2.2.2.2)
    else if m.strokeTerminals = "Square" then
      (c.1 + 10, c.2.1, c.2.2.1 - 5, c.2.2.2.1, c.2.2.2.2.1 + 5, c.2.2.2.2.2)
    else if m.strokeTerminals = "Flared" then
      (c.1, c.2.1, c.2.2.1, c.2.2.2.1 + 15, c.2.2.2.2.1 + 5, c.2.2.2.2.2 + 5)
    else c
  if jsIncludes m.shape ("large x-height") then
    (t.1, t.2.1 + 10, t.2.2.1, t.2.2.2.1, t.2.2.2.2.1 - 5, t.2.2.2.2.2 + 5)
  else if jsIncludes m.shape ("small x-height") then
    (t.1, t.2.1, t.2.2.1, t.2.2.2.1 + 10, t.2.2.2.2.1 + 5, t.2.2.2.2.2 - 5)
  else if jsIncludes m.shape ("tall ascenders") then
    (t.1 + 5, t.2.1, t.2.2.1 + 5, t.2.2.2.1 + 5, t.2.2.2.2.1, t.2.2.2.2.2)
  else if jsIncludes m.shape ("deep descenders") then
    (t.1, t.2.1, t.2.2.1, t.2.2.2.1 + 5, t.2.2.2.2.1, t.2.2.2.2.2 + 5)
  else t

/-- The metrics "fingerprint" hash of `analyzeFontPersonality`
(fontValidator.js:460-466): `NaN` (`none`) when any of the four metric
strings does not parse. -/
def personalityHash (m : MetricsRec) : JN :=
  let metricsSum :=
    jnAdd (jnAdd (jnAdd (jnMul (parseFloat m.xHeight) (some 100))
      (jnMul (parseFloat m.capHeight) (some 200)))
      (jnMul (parseFloat m.ascender) (some 300)))
      (jnMul (parseFloat m.descender) (some 400))
  jnMod (jnAbs (jnRound (jnMul metricsSum (some 1000)))) 100

/-- One clamped trait: base value plus the jitter `((hash + k) % 10) - 5`,
then `clamp` (fontValidator.js:468-485). -/
def traitFinal (base : ℚ) (hash : JN) (k : ℚ) : JN :=
  clampJN (jnAdd (some base) (jnSub (jnMod (jnAdd hash (some k)) 10) (some 5)))

/-- The six clamped personality traits (before description generation). -/
def personalityTraits (fontStyle : String) (m : MetricsRec) :
    JN × JN × JN × JN × JN × JN :=
  let b := personalityBase fontStyle m
  let h := personalityHash m
  (traitFinal b.1 h 0, traitFinal b.2.1 h 3, traitFinal b.2.2.1 h 7,
   traitFinal b.2.2.2.1 h 13, traitFinal b.2.2.2.2.1 h 19,
   traitFinal b.2.2.2.2.2 h 23)

/-! ## Component: emotional description -/

/-- Stable insertion step for the descending-by-value sort that
`Object.entries(personality).sort((a, b) => b[1] - a[1])` performs: an
element moves ahead only of strictly smaller values, so equal values (and
`NaN` comparisons, which the comparator maps to no swap) keep their original
order. -/
def insertDescStable (p : String × JN) : List (String × JN) → List (String × JN)
  | [] => [p]
  | q :: qs =>
    if jnGtB q.2 p.2 then q :: insertDescStable p qs
    else p :: q :: qs

/-- Stable sort, descending by trait value. -/
def sortTraitsDesc : List (String × JN) → List (String × JN)
  | [] => []
  | p :: ps => insertDescStable p (sortTraitsDesc ps)

/-- Whitespace-run collapsing used by `description.replace(/\s\s+/g, ' ')`:
any run of two or more whitespace characters becomes a single space; a lone
whitespace character is kept as-is. -/
def collapseWsGo : Bool → List Char → List Char
  | _, [] => []
  | true, c :: cs =>
    if c.isWhitespace then collapseWsGo true cs
    else c :: collapseWsGo false cs
  | false, c :: cs =>
    if c.isWhitespace then
      match cs with
      | d :: _ =>
        if d.isWhitespace then ' ' :: collapseWsGo true cs
        else c :: collapseWsGo false cs
      | [] => [c]
    else c :: collapseWsGo false cs

/-- Model of `s.replace(/\s\s+/g, ' ')`. -/
def collapseWs (s : String) : String :=
  String.mk (collapseWsGo false s.toList)

/-- Model of `generateCustomEmotionalDescription` (fontValidator.js:503).  The single
`Math.random() > 0.5` draw at line 604 is modelled by the explicit `coin`
argument; everything else is deterministic in the inputs. -/
def generateCustomEmotionalDescription
    (traits : JN × JN × JN × JN × JN × JN) (fontStyle : String)
    (m : MetricsRec) (coin : Bool) : String :=
  let entries : List (String × JN) :=
    [("formality", traits.1), ("approachability", traits.2.1),
     ("gentleness", traits.2.2.1), ("sophistication", traits.2.2.2.1),
     ("traditionality", traits.2.2.2.2.1), ("playfulness", traits.2.2.2.2.2)]
  let sorted := sortTraitsDesc entries
  let highest := (sorted.head?).getD ("", none)
  let lowest := (sorted.getLast?).getD ("", none)
  let styleDesc :=
    if fontStyle = "serif" then "With its classic serif details, this font "
    else if fontStyle = "sans-serif" then "This modern sans-serif font "
    else if fontStyle = "script" then
      "With its flowing script characteristics, this font "
    else if fontStyle = "decorative" then "As a decorative design, this font "
    else if fontStyle = "monospace" then
      "With its uniform character widths, this monospace font "
    else "This font "
  let contrastDesc :=
    if jsIncludes m.contrast ("High") then
      "has dramatic contrast between thick and thin strokes, which "
    else if jsIncludes m.contrast ("No") then
      "maintains even stroke weight throughout, which "
    else if jsIncludes m.contrast ("Medium") then
      "shows moderate contrast in its strokes, which "
    else ""
  let terminalDesc :=
    if m.strokeTerminals = "Rounded" then
      "features soft, rounded terminals that "
    else if m.strokeTerminals = "Pointed" then
      "has sharp, pointed terminals that "
    else if m.strokeTerminals = "Square" then
      "uses solid, square terminals that "
    else if m.strokeTerminals = "Flared" then
      "incorporates elegantly flared terminals that "
    else ""
  let highTraitDesc :=
    if highest.1 = "formality" ∧ jnGtB highest.2 (some 70) then
      "appears quite formal and structured, suitable for professional contexts"
    else if highest.1 = "approachability" ∧ jnGtB highest.2 (some 70) then
      "feels friendly and approachable, putting readers at ease"
    else if highest.1 = "gentleness" ∧ jnGtB highest.2 (some 70) then
      "conveys a gentle and soft impression with balanced forms"
    else if highest.1 = "sophistication" ∧ jnGtB highest.2 (some 70) then
      "exudes sophistication and elegance through its refined proportions"
    else if highest.1 = "traditionality" ∧ jnGtB highest.2 (some 70) then
      "embraces traditional typographic principles with a classical feel"
    else if highest.1 = "playfulness" ∧ jnGtB highest.2 (some 70) then
      "has a playful and energetic character that adds personality to text"
    else if jsIncludes m.shape ("large x-height") then
      "offers excellent readability with its large x-height and open forms"
    else if jsIncludes m.shape ("small x-height") then
      "creates an elegant appearance with its modest x-height and refined proportions"
    else if jsIncludes m.shape ("tall ascenders") then
      "features distinctive tall ascenders that create vertical rhythm and elegance"
    else if jsIncludes m.shape ("deep descenders") then
      "uses pronounced descenders that add character and distinctiveness"
    else "balances various typographic qualities for versatile use"
  let lowTraitDesc :=
    if jnLtB lowest.2 (some 30) then
      if lowest.1 = "formality" then
        " while maintaining a relaxed, casual atmosphere"
      else if lowest.1 = "approachability" then
        " while projecting a sense of authority and distance"
      else if lowest.1 = "gentleness" then
        " with strong, confident strokes that command attention"
      else if lowest.1 = "sophistication" then
        " with a straightforward, functional approach to typography"
      else if lowest.1 = "traditionality" then
        " with a contemporary aesthetic that breaks from convention"
      else if lowest.1 = "playfulness" then
        " with a serious tone that prioritizes clarity and professionalism"
      else ""
    else ""
  let mid :=
    if coin ∧ contrastDesc ≠ "" then contrastDesc
    else if terminalDesc ≠ "" then terminalDesc
    else ""
  collapseWs (styleDesc ++ mid ++ highTraitDesc ++ lowTraitDesc ++ ".")

/-- Model of `analyzeFontPersonality` (fontValidator.js:361): the six clamped traits
plus the generated description (the `coin` models the unseeded random draw
inside the description generator). -/
def analyzeFontPersonality (fontStyle : String) (m : MetricsRec)
    (coin : Bool) : Personality :=
  let t := personalityTraits fontStyle m
  { formality := t.1
    approachability := t.2.1
    gentleness := t.2.2.1
    sophistication := t.2.2.2.1
    traditionality := t.2.2.2.2.1
    playfulness := t.2.2.2.2.2
    emotionalDescription :=
      generateCustomEmotionalDescription t fontStyle m coin }

/-! ## Component: recommendation generator -/

/-- Lift a list of JS strings pushed onto a recommendations array. -/
def ss (l : List String) : List (Option String) := l.map some

/-- A fingerprint index `Math.abs(Math.round(fp * k)) % len`; `none` models
the `NaN` index produced when the fingerprint is `NaN`. -/
def fpIdx (fp : JN) (k : ℚ) (len : ℕ) : Option ℕ :=
  fp.map (fun q => (jsRound (q * k)).natAbs % len)

/-- JS array indexing `arr[i]`: `undefined` (`none`) for a `NaN` index. -/
def elemAt (l : List String) : Option ℕ → Option String
  | some i => l.get? i
  | none => none

/-- The `fpIndex1 !== fpIndex2` test; `NaN !== NaN` is true in JS. -/
def fpNeq : Option ℕ → Option ℕ → Bool
  | some i, some j => decide (i ≠ j)
  | _, _ => true

/-- The 18-entry pool of additional recommended uses
(fontValidator.js:911). -/
def uniqueRecommendationsPool : List String :=
  ["Editorial design", "Branding and identity", "User experience design",
   "Product packaging", "Signage systems", "Data visualization",
   "Email templates", "Social media graphics", "Presentation slides",
   "App interfaces", "Video subtitles", "Book covers",
   "Event materials", "Restaurant menus", "Marketing collateral",
   "Annual reports", "Digital advertisements", "Print brochures"]

/-- The 15-entry pool of additional discouraged uses
(fontValidator.js:920). -/
def uniqueNonRecommendationsPool : List String :=
  ["Emergency signage", "Medical instructions", "Financial disclaimers",
   "Legal contracts", "Academic papers", "Technical manuals",
   "Educational flashcards", "Children\x27s books", "Comic strips",
   "Navigation systems", "Code editors", "Stock tickers",
   "Data tables", "Mathematical formulas", "Bibliography listings"]

/-- Model of `generateRecommendations` (fontValidator.js:715): build the three lists
by the exact push sequence of the source, then deduplicate with set
semantics (first occurrence wins) and cap at 6 / 6 / 4 entries. -/
def generateRecommendations (fontStyle : String) (m : MetricsRec)
    (p : Personality) : Recommendations :=
  let recStyle : List (Option String) :=
    if fontStyle = "serif" then
      ss ["Business documents and presentations",
          "Book covers and interior text", "Academic publications"]
    else if fontStyle = "sans-serif" then
      ss ["Website and mobile interfaces", "Corporate branding",
          "Information displays"]
    else if fontStyle = "script" then
      ss ["Wedding invitations", "Certificates", "Luxury branding"]
    else if fontStyle = "decorative" then
      ss ["Headlines and titles", "Posters and banners", "Logo design"]
    else if fontStyle = "monospace" then
      ss ["Code displays", "Technical documentation", "Tabular data"]
    else []
  let nrStyle : List (Option String) :=
    if fontStyle = "serif" then
      ss ["Casual social media content",
          "Mobile interfaces requiring compact text",
          "Display text at very small sizes"]
    else if fontStyle = "sans-serif" then
      ss ["Traditional formal documents", "Luxury brand materials",
          "Classical literature"]
    else if fontStyle = "script" then
      ss ["Long-form body text", "User interfaces", "Technical documentation"]
    else if fontStyle = "decorative" then
      ss ["Body text", "Legal documents", "Technical content"]
    else if fontStyle = "monospace" then
      ss ["Long-form reading", "Elegant branding", "Flowing text layouts"]
    else []
  let fpStyle : List (Option String) :=
    if fontStyle = "serif" then
      ss ["Open Sans (for body text)", "Roboto (for UI elements)",
          "Lato (for versatile use alongside)"]
    else if fontStyle = "sans-serif" then
      ss ["Merriweather (for headings)", "Georgia (for body text in print)",
          "Playfair Display (for elegant headings)"]
    else if fontStyle = "script" then
      ss ["Montserrat (for body text)", "Raleway (for subheadings)",
          "Open Sans (for UI elements)"]
    else if fontStyle = "decorative" then
      ss ["Roboto (for body text)", "Lato (for secondary text)",
          "Open Sans (for UI elements)"]
    else if fontStyle = "monospace" then
      ss ["Open Sans (for headings)", "Roboto (for UI elements)",
          "Source Sans Pro (for body text)"]
    else []
  let xh := parseFloat m.xHeight
  let recX : List (Option String) :=
    match xh with
    | some v =>
      if v > 6/10 then
        ss ["Small text sizes", "Mobile applications",
            "Accessibility-focused designs"]
      else if v < 4/10 then
        ss ["Display typography", "Formal invitations", "Luxury branding"]
      else []
    | none => []
  let nrX : List (Option String) :=
    match xh with
    | some v =>
      if v > 6/10 then
        if (some "Traditional formal documents") ∈ nrStyle then []
        else [some "Traditional formal documents"]
      else if v < 4/10 then
        ss ["User interfaces with limited space", "Body text below 12pt"]
      else []
    | none => []
  let recC : List (Option String) :=
    if jsIncludes m.contrast ("High") then
      ss ["Magazine layouts", "Fashion publications",
          "Luxury product packaging"]
    else if jsIncludes m.contrast ("No") then
      ss ["Digital interfaces", "Wayfinding signage", "Text for small screens"]
    else []
  let nrC : List (Option String) :=
    if jsIncludes m.contrast ("High") then
      ss ["Small text on screens", "Low-resolution displays"]
    else if jsIncludes m.contrast ("No") then
      ss ["Traditional book typography", "Formal certificates"]
    else []
  let recT : List (Option String) :=
    if m.strokeTerminals = "Rounded" then
      ss ["Children\x27s content", "Friendly communications",
          "Educational materials"]
    else if m.strokeTerminals = "Pointed" then
      ss ["Fashion branding", "Luxury products", "Editorial design"]
    else if m.strokeTerminals = "Square" then
      ss ["Corporate communications", "Technical documentation",
          "Informational displays"]
    else []
  let recS : List (Option String) :=
    if jsIncludes m.shape ("large x-height") then
      ss ["User interfaces", "Mobile applications", "Wayfinding signage"]
    else if jsIncludes m.shape ("tall ascenders") then
      ss ["Magazine headlines", "Book titles", "Elegant branding"]
    else if jsIncludes m.shape ("deep descenders") then
      ss ["Editorial design", "Pull quotes", "Distinctive headlines"]
    else []
  let nrS : List (Option String) :=
    if jsIncludes m.shape ("large x-height") then []
    else if jsIncludes m.shape ("tall ascenders") then
      ss ["Tight line spacing layouts", "Mobile UI with space constraints"]
    else if jsIncludes m.shape ("deep descenders") then
      ss ["Designs with minimal line spacing", "Compact layouts"]
    else []
  let recF : List (Option String) :=
    if jnGtB p.formality (some 70) then
      ss ["Formal business communications", "Legal documents",
          "Government publications"]
    else if jnLtB p.formality (some 30) then
      ss ["Casual blogs", "Social media content", "Friendly marketing"]
    else []
  let nrF : List (Option String) :=
    if jnGtB p.formality (some 70) then
      ss ["Casual social media", "Children\x27s books",
          "Friendly marketing materials"]
    else if jnLtB p.formality (some 30) then
      ss ["Legal documents", "Academic publications",
          "Formal business reports"]
    else []
  let recP : List (Option String) :=
    if jnGtB p.playfulness (some 70) then
      ss ["Children\x27s content", "Entertainment brands",
          "Casual social media"]
    else if jnLtB p.playfulness (some 30) then
      ss ["Financial reports", "Technical documentation", "Research papers"]
    else []
  let nrP : List (Option String) :=
    if jnGtB p.playfulness (some 70) then
      ss ["Legal documents", "Financial reports", "Medical publications"]
    else if jnLtB p.playfulness (some 30) then
      ss ["Children\x27s content", "Entertainment brands", "Casual blogging"]
    else []
  let recSo : List (Option String) :=
    if jnGtB p.sophistication (some 70) then
      ss ["Luxury branding", "High-end publications",
          "Art and culture magazines"]
    else if jnLtB p.sophistication (some 30) then
      ss ["Technical manuals", "Utilitarian designs",
          "Information-focused content"]
    else []
  let nrSo : List (Option String) :=
    if jnGtB p.sophistication (some 70) then
      ss ["Technical manuals", "Casual communications",
          "Budget-friendly marketing"]
    else if jnLtB p.sophistication (some 30) then
      ss ["Luxury branding", "Fashion magazines", "Premium marketing"]
    else []
  let recA : List (Option String) :=
    if jnGtB p.approachability (some 70) then
      ss ["Educational materials", "Healthcare communications",
          "Customer-facing content"]
    else if jnLtB p.approachability (some 30) then
      ss ["Security notices", "Warning messages",
          "Authoritative communications"]
    else []
  let nrA : List (Option String) :=
    if jnGtB p.approachability (some 70) then
      ss ["High-security communications", "Legal warnings",
          "Authoritative messaging"]
    else if jnLtB p.approachability (some 30) then
      ss ["Education for young children", "Community outreach",
          "Friendly marketing"]
    else []
  let fpPers : List (Option String) :=
    if jnGtB p.sophistication (some 65) then
      ss ["Baskerville (for elegant body text)",
          "Didot (for high-contrast headings)"]
    else if jnGtB p.approachability (some 65) then
      ss ["Nunito (for friendly headlines)",
          "Quicksand (for approachable UI elements)"]
    else if jnGtB p.formality (some 65) then
      ss ["Garamond (for traditional text)", "Bodoni (for formal headings)"]
    else if jnGtB p.playfulness (some 65) then
      ss ["Comic Neue (for casual text)", "Marker Felt (for playful highlights)"]
    else []
  let fp : JN :=
    jnAdd (jnAdd (jnAdd (jnMul (parseFloat m.xHeight) (some 100))
      (jnMul (parseFloat m.capHeight) (some 200)))
      (jnMul (parseFloat m.ascender) (some 300)))
      (jnMul (parseFloat m.descender) (some 400))
  let i1 := fpIdx fp 100 uniqueRecommendationsPool.length
  let i2 := fpIdx fp 200 uniqueRecommendationsPool.length
  let recFp : List (Option String) :=
    if fpNeq i1 i2 then
      [elemAt uniqueRecommendationsPool i1, elemAt uniqueRecommendationsPool i2]
    else [elemAt uniqueRecommendationsPool i1]
  let j1 := fpIdx fp 300 uniqueNonRecommendationsPool.length
  let j2 := fpIdx fp 400 uniqueNonRecommendationsPool.length
  let nrFp : List (Option String) :=
    if fpNeq j1 j2 then
      [elemAt uniqueNonRecommendationsPool j1,
       elemAt uniqueNonRecommendationsPool j2]
    else [elemAt uniqueNonRecommendationsPool j1]
  let recommendedUses :=
    recStyle ++ recX ++ recC ++ recT ++ recS ++ recF ++ recP ++ recSo ++
      recA ++ recFp
  let notRecommendedUses :=
    nrStyle ++ nrX ++ nrC ++ nrS ++ nrF ++ nrP ++ nrSo ++ nrA ++ nrFp
  let fontPairings := fpStyle ++ fpPers
  { recommendedUses := (jsSetDedup recommendedUses).take 6
    notRecommendedUses := (jsSetDedup notRecommendedUses).take 6
    fontPairings := (jsSetDedup fontPairings).take 4 }

/-! ## Component: character-set surveyor -/

/-- Does a probe resolve to a real glyph?  A thrown lookup (`err`) is caught
by the per-character `try` and counts as not covered, exactly like a falsy
or `.notdef` result. -/
def resolvesToGlyph (f : Font) (probe : String) : Bool :=
  match f.charToGlyph probe with
  | .glyph n _ _ => n ≠ ".notdef"
  | .missing => false
  | .err => false

/-- Model of `hasCharacterRange` (fontValidator.js:1059): at least 70 % of the
codepoints of the inclusive range must resolve (the literal `0.7` is
modelled exactly as `7/10`). -/
def hasCharacterRange (f : Font) (startCode endCode : ℕ) : Bool :=
  let size := endCode - startCode + 1
  let threshold := size * 7 / 10
  let count := ((List.range' startCode size).filter
    (fun c => resolvesToGlyph f (String.mk [Char.ofNat c]))).length
  threshold ≤ count

/-- Model of `hasSpecificCharacters` (fontValidator.js:1084): the same 70 %
threshold over a literal character list. -/
def hasSpecificCharacters (f : Font) (chars : List String) : Bool :=
  let threshold := chars.length * 7 / 10
  let count := (chars.filter (fun c => resolvesToGlyph f c)).length
  threshold ≤ count

/-- Model of `checkForTabularNumerals` (fontValidator.js:1107): a thrown lookup on
any digit aborts into the surrounding `catch`, returning false; otherwise
collect truthy advance widths of the ten digits and require at least five,
all identical. -/
def checkForTabularNumerals (f : Font) : Bool :=
  if (List.range 10).any (fun i => f.charToGlyph (toString i) == GlyphRes.err)
  then false
  else
    let widths := (List.range 10).filterMap (fun i =>
      match f.charToGlyph (toString i) with
      | .glyph _ (some w) _ => if w ≠ 0 then some w else none
      | _ => none)
    if 5 ≤ widths.length then
      match widths with
      | w :: rest => rest.all (fun x => x == w)
      | [] => false
    else false

/-- The character-set record as initialized before the `try` block: every
descriptor `"Unknown"`. -/
def defaultCharacterSetInfo : CharacterSetInfo :=
  { latin := "Unknown", numerals := "Unknown", symbols := "Unknown",
    punctuation := "Unknown", languages := "Unknown" }

/-- The ten ASCII digits probed for proportional numerals. -/
def digitChars : List String :=
  ["0", "1", "2", "3", "4", "5", "6", "7", "8", "9"]

/-- The currency symbols probed (fontValidator.js:998). -/
def currencyChars : List String := ["$", "€", "£", "¥", "¢"]

/-- The basic punctuation probes (fontValidator.js:1001). -/
def basicPunctChars : List String :=
  [".", ",", ";", ":", "!", "?", "\x22", "\x27", "(", ")", "[", "]",
   "\x7b", "\x7d"]

/-- The extended punctuation probes (fontValidator.js:1002). -/
def extendedPunctChars : List String :=
  ["-", "--", "...", "<", ">", "\x22", "\x22", "\x27", "\x27"]

/-- Model of `analyzeCharacterSet` (fontValidator.js:967): the only statement in the
`try` block that can throw is the glyph-count access (modelled by
`glyphCount = none`); the `catch` then returns the untouched all-`Unknown`
record.  Per-character lookup errors are absorbed inside the helpers. -/
def analyzeCharacterSet (f : Font) : CharacterSetInfo :=
  match f.glyphCount with
  | none => defaultCharacterSetInfo
  | some totalGlyphs =>
    let hasBasicLatin := hasCharacterRange f 0x20 0x7F
    let hasLatinSupplement := hasCharacterRange f 0xA0 0xFF
    let hasLatinExtendedA := hasCharacterRange f 0x100 0x17F
    let hasLatinExtendedB := hasCharacterRange f 0x180 0x24F
    let hasProportionalNumerals := hasSpecificCharacters f digitChars
    let hasTabularNumerals := checkForTabularNumerals f
    let hasCurrencySymbols := hasSpecificCharacters f currencyChars
    let hasBasicPunctuation := hasSpecificCharacters f basicPunctChars
    let hasExtendedPunctuation := hasSpecificCharacters f extendedPunctChars
    { latin :=
        if hasBasicLatin && hasLatinSupplement && hasLatinExtendedA &&
            hasLatinExtendedB then
          "Complete (" ++ toString totalGlyphs ++ " glyphs)"
        else if hasBasicLatin && hasLatinSupplement then
          "Extended (Western European)"
        else if hasBasicLatin then "Basic (ASCII only)"
        else "Unknown"
      numerals :=
        if hasProportionalNumerals && hasTabularNumerals then
          "Proportional and Tabular"
        else if hasTabularNumerals then "Tabular"
        else if hasProportionalNumerals then "Proportional"
        else "Unknown"
      symbols := if hasCurrencySymbols then "Basic (+currency)" else "Basic"
      punctuation :=
        if hasBasicPunctuation && hasExtendedPunctuation then "Complete"
        else if hasBasicPunctuation then "Basic"
        else "Unknown"
      languages :=
        if hasBasicLatin && hasLatinSupplement && hasLatinExtendedA then
          "Latin-based (Western European)"
        else if hasBasicLatin && hasLatinSupplement then "Latin-based (limited)"
        else if hasBasicLatin then "English only"
        else "Unknown" }

/-! ## Component: weight / width resolver -/

/-- The lower-cased concatenation `fullName + " " + fontFamily + " " +
fontSubfamily` used by the weight and width name heuristics. -/
def combinedWeightName (f : Font) : String :=
  jsToLower (f.names.fullName.getD ("")) ++ " " ++
    jsToLower (f.names.fontFamily.getD ("")) ++ " " ++
    jsToLower (f.names.fontSubfamily.getD (""))

/-- Name-heuristic branch of `determineFontWeight`
(fontValidator.js:1154-1172). -/
def weightFromName (f : Font) : String :=
  let cn := combinedWeightName f
  if jsIncludes cn ("thin") then "Thin (100)"
  else if jsIncludes cn ("extra light") ∨ jsIncludes cn ("ultralight") then
    "Extra Light (200)"
  else if jsIncludes cn ("light") then "Light (300)"
  else if jsIncludes cn ("regular") ∨ jsIncludes cn ("normal") then
    "Regular (400)"
  else if jsIncludes cn ("medium") then "Medium (500)"
  else if jsIncludes cn ("semibold") ∨ jsIncludes cn ("demibold") then
    "Semi Bold (600)"
  else if jsIncludes cn ("bold") ∧ ¬ jsIncludes cn ("extra") ∧
      ¬ jsIncludes cn ("ultra") then "Bold (700)"
  else if jsIncludes cn ("extra bold") ∨ jsIncludes cn ("ultrabold") then
    "Extra Bold (800)"
  else if jsIncludes cn ("black") ∨ jsIncludes cn ("heavy") then "Black (900)"
  else "Regular (400)"

/-- The weight-class bucket chain of `determineFontWeight`
(fontValidator.js:1142-1151): inclusive upper bounds, any class above 900
reported verbatim. -/
def weightLabelFromClass (wc : ℤ) : String :=
  if wc ≤ 100 then "Thin (100)"
  else if wc ≤ 200 then "Extra Light (200)"
  else if wc ≤ 300 then "Light (300)"
  else if wc ≤ 400 then "Regular (400)"
  else if wc ≤ 500 then "Medium (500)"
  else if wc ≤ 600 then "Semi Bold (600)"
  else if wc ≤ 700 then "Bold (700)"
  else if wc ≤ 800 then "Extra Bold (800)"
  else if wc ≤ 900 then "Black (900)"
  else "Heavy (" ++ toString wc ++ ")"

/-- Model of `determineFontWeight` (fontValidator.js:1136): bucket the OS/2 weight
class by inclusive upper bounds, else fall back to the name heuristic. -/
def determineFontWeight (f : Font) : String :=
  match f.os2 with
  | some o =>
    if jsTruthyInt o.usWeightClass then
      weightLabelFromClass (o.usWeightClass.getD 0)
    else weightFromName f
  | none => weightFromName f

/-- Name-heuristic branch of `determineFontWidth`
(fontValidator.js:1202-1219). -/
def widthFromName (f : Font) : String :=
  let cn := combinedWeightName f
  if jsIncludes cn ("ultra condensed") then "Ultra Condensed (1)"
  else if jsIncludes cn ("extra condensed") then "Extra Condensed (2)"
  else if jsIncludes cn ("condensed") ∧ ¬ jsIncludes cn ("semi") then
    "Condensed (3)"
  else if jsIncludes cn ("semi condensed") then "Semi Condensed (4)"
  else if jsIncludes cn ("semi expanded") then "Semi Expanded (6)"
  else if jsIncludes cn ("expanded") ∧ ¬ jsIncludes cn ("semi") ∧
      ¬ jsIncludes cn ("extra") ∧ ¬ jsIncludes cn ("ultra") then
    "Expanded (7)"
  else if jsIncludes cn ("extra expanded") then "Extra Expanded (8)"
  else if jsIncludes cn ("ultra expanded") then "Ultra Expanded (9)"
  else "Normal (5)"

/-- Model of `determineFontWidth` (fontValidator.js:1184): map the OS/2 width class
1-9 to its canonical name, else fall back to the name heuristic. -/
def determineFontWidth (f : Font) : String :=
  match f.os2 with
  | some o =>
    if jsTruthyInt o.usWidthClass then
      let wc := o.usWidthClass.getD 0
      if wc = 1 then "Ultra Condensed (1)"
      else if wc = 2 then "Extra Condensed (2)"
      else if wc = 3 then "Condensed (3)"
      else if wc = 4 then "Semi Condensed (4)"
      else if wc = 5 then "Normal (5)"
      else if wc = 6 then "Semi Expanded (6)"
      else if wc = 7 then "Expanded (7)"
      else if wc = 8 then "Extra Expanded (8)"
      else if wc = 9 then "Ultra Expanded (9)"
      else "Custom (" ++ toString wc ++ ")"
    else widthFromName f
  | none => widthFromName f

/-! ## The full per-font pipeline -/

/-- Model of `analyzeFontFile` (fontValidator.js:10) after a successful parse: the
whole result record.  The `coin` argument models the single unseeded
`Math.random() > 0.5` draw inside the description generator; the
`lastModified` timestamp is kept as its raw value (its locale rendering is
a pure function of it). -/
def analyzeFont (file : FileInfo) (f : Font) (coin : Bool) :
    FontAnalysisResult :=
  let fontStyle := determineFontStyle f
  let fontMetrics := calculateFontMetrics f
  let fontPersonality := analyzeFontPersonality fontStyle fontMetrics coin
  { name := f.names.fullName.getD
      (String.mk (file.name.toList.takeWhile (fun c => c ≠ '.')))
    size := file.size
    type := file.type
    lastModified := file.lastModified
    format := determineFontFormat f
    version := f.names.version.getD ("Unknown")
    copyright := f.names.copyright.getD ("Unknown")
    manufacturer := f.names.manufacturer.getD ("Unknown")
    style := fontStyle
    metrics := fontMetrics
    personality := fontPersonality
    recommendations := generateRecommendations fontStyle fontMetrics fontPersonality
    characterSet := analyzeCharacterSet f
    weight := determineFontWeight f
    width := determineFontWidth f }

/-! ## Component: comparator -/

/-- Model of `calculateDifference` (fontValidator.js:1368).  When both inputs parse:
`diff = n1 - n2`, the percentage `(diff / n1) * 100` is rendered by
`toFixed(1)` and then coerced back through `Math.abs` (which drops a
trailing `.0`); the sign word is `larger` for `diff > 0`, else `smaller`.
A zero primary value yields the JS division results `NaN` / `Infinity`,
which `Math.abs` maps to `NaN` / `Infinity` in the output.  When either
input fails to parse, the raw strings are compared. -/
def calculateDifference (value1 value2 : String) : String :=
  match parseFloat value1, parseFloat value2 with
  | some n1, some n2 =>
    let diff := n1 - n2
    if n1 = 0 then
      if diff = 0 then "NaN" ++ "% smaller"
      else if diff > 0 then "Infinity" ++ "% larger"
      else "Infinity" ++ "% smaller"
    else
      let t : ℤ := jsRound (diff / n1 * 100 * 10)
      if diff > 0 then fmtTenths t.natAbs ++ "% larger"
      else fmtTenths t.natAbs ++ "% smaller"
  | _, _ => if value1 = value2 then "Identical" else "Different"

/-- Model of `calculateCompatibilityScore` (fontValidator.js:1403): base 50, +10 for
a differing format string, +10 for a differing weight label, an x-height
band bonus (the band tests are all false in JS when `max x1 x2 = 0`, since
the ratio is then `NaN` or `Infinity`), +10 for a formality gap above 30,
clamped to [0, 100]. -/
def calculateCompatibilityScore (font1 font2 : FontAnalysisResult) : ℤ :=
  let score1 : ℤ := 50
  let score2 := score1 + (if font1.format ≠ font2.format then 10 else 0)
  let score3 := score2 + (if font1.weight ≠ font2.weight then 10 else 0)
  let score4 := score3 +
    (match parseFloat font1.metrics.xHeight, parseFloat font2.metrics.xHeight with
     | some x1, some x2 =>
       if max x1 x2 = 0 then 0
       else
         let d := |x1 - x2| / max x1 x2
         if d < 1/10 then 15
         else if d < 2/10 then 10
         else if d < 3/10 then 5
         else 0
     | _, _ => 0)
  let score5 := score4 +
    (if jnGtB (jnAbs (jnSub font1.personality.formality
        font2.personality.formality)) (some 30) then 10 else 0)
  max 0 (min 100 score5)

/-- The three pairing-recommendation strings. -/
structure PairingRecs where
  headingsBody : String
  contrastPairing : String
  hierarchyPairing : String
deriving DecidableEq

/-- Model of `generatePairingRecommendations` (fontValidator.js:1447).  Note the
source compares the weight label against the bare strings `"Bold"`,
`"Heavy"`, `"Black"`. -/
def generatePairingRecommendations (font1 font2 : FontAnalysisResult) :
    PairingRecs :=
  { headingsBody :=
      if font1.weight = "Bold" ∨ font1.weight = "Heavy" ∨
          font1.weight = "Black" then
        font1.name ++ " for headings, " ++ font2.name ++ " for body text"
      else if font2.weight = "Bold" ∨ font2.weight = "Heavy" ∨
          font2.weight = "Black" then
        font2.name ++ " for headings, " ++ font1.name ++ " for body text"
      else if jnGtB font1.personality.formality font2.personality.formality then
        font1.name ++ " for headings, " ++ font2.name ++ " for body text"
      else
        font2.name ++ " for headings, " ++ font1.name ++ " for body text"
    contrastPairing :=
      if font1.metrics.contrast ≠ font2.metrics.contrast then
        "Good contrast between " ++ font1.name ++ " and " ++ font2.name ++
          " creates visual interest"
      else "Similar contrast levels may create a more unified look"
    hierarchyPairing :=
      if jnGtB (jnAbs (jnSub font1.personality.formality
          font2.personality.formality)) (some 30) then
        "Strong personality difference creates clear hierarchy"
      else "Similar personalities create a harmonious design" }

/-! ## Spec-side definitions (formalizing the claims' own words) -/

/-- The x-height band bonus as claim C1 words it: 15 / 10 / 5 for a relative
difference `|x1 - x2| / max x1 x2` below 0.1 / 0.2 / 0.3 (highest band
only), else 0.  When `max x1 x2 = 0` the relative difference is undefined
and no band applies (the code agrees: the JS ratio is then `NaN` or
`Infinity` and every band test is false). -/
def claimedXHeightBonus (x1 x2 : ℚ) : ℤ :=
  if max x1 x2 = 0 then 0
  else if |x1 - x2| / max x1 x2 < 1/10 then 15
  else if |x1 - x2| / max x1 x2 < 2/10 then 10
  else if |x1 - x2| / max x1 x2 < 3/10 then 5
  else 0

/-- The compatibility score as claim C1 words it: 50, +10 for differing
format strings, +10 for differing weight labels, the x-height band bonus,
+10 for a formality gap above 30, clamped to [0, 100]. -/
def claimedCompatibilityScore (fmt1 fmt2 wt1 wt2 : String) (x1 x2 q1 q2 : ℚ) : ℤ :=
  max 0 (min 100 (50 + (if fmt1 ≠ fmt2 then 10 else 0) +
    (if wt1 ≠ wt2 then 10 else 0) + claimedXHeightBonus x1 x2 +
    (if |q1 - q2| > 30 then 10 else 0)))

/-- Do the name-keyword heuristics of `determineFontStyle` fire?  When this
is false, classification falls through to the font's tables. -/
def nameStyleRuleFires (f : Font) : Bool :=
  let cn := combinedStyleName f
  (jsIncludes cn ("sans") && !jsIncludes cn ("serif")) ||
    (jsIncludes cn ("serif") && !jsIncludes cn ("sans")) ||
    jsIncludes cn ("script") || jsIncludes cn ("handwriting") ||
    jsIncludes cn ("cursive") || jsIncludes cn ("brush") ||
    jsIncludes cn ("calligraph") ||
    jsIncludes cn ("deco") || jsIncludes cn ("display") ||
    jsIncludes cn ("ornament") || jsIncludes cn ("fancy") ||
    jsIncludes cn ("comic") || jsIncludes cn ("grunge")

/-! ## Concrete inputs used by witnesses and counterexamples -/

/-- A well-formed metrics record with a chosen x-height string, as the
metric extractor produces. -/
def sampleMetrics (xh : String) : MetricsRec :=
  { xHeight := xh, capHeight := "0.70 em", ascender := "0.80 em",
    descender := "0.20 em", contrast := "Medium (3.5)",
    strokeTerminals := "Rounded",
    shape := "Balanced proportions, versatile and readable" }

/-- A metrics record none of whose numeric fields parses as a number. -/
def degenerateMetrics : MetricsRec :=
  { xHeight := "n/a", capHeight := "n/a", ascender := "n/a",
    descender := "n/a", contrast := "", strokeTerminals := "", shape := "" }

/-- A concrete analysis-result record with the given name, format, weight
label, x-height string and formality score. -/
def sampleResult (nm fmt wt xh : String) (form : JN) : FontAnalysisResult :=
  { name := nm, size := 0, type := "font/ttf", lastModified := 0,
    format := fmt, version := "Unknown", copyright := "Unknown",
    manufacturer := "Unknown", style := "sans-serif",
    metrics := sampleMetrics xh,
    personality :=
      { formality := form, approachability := some 50, gentleness := some 50,
        sophistication := some 50, traditionality := some 50,
        playfulness := some 50, emotionalDescription := "" },
    recommendations :=
      { recommendedUses := [], notRecommendedUses := [], fontPairings := [] },
    characterSet := defaultCharacterSetInfo, weight := wt,
    width := "Normal (5)" }

/-- A font whose PANOSE family type is 3 (script) but whose family name
contains "sans". -/
def panoseScriptSansFont : Font :=
  { unitsPerEm := 1000
    os2 := some { panose := some [3, 0, 0, 0, 0, 0, 0, 0, 0, 0] }
    names := { fontFamily := some "Sans" }
    charToGlyph := fun _ => GlyphRes.missing }

/-- A font whose PANOSE family type is 3 and whose name strings carry no
style keyword at all. -/
def panoseScriptPlainFont : Font :=
  { unitsPerEm := 1000
    os2 := some { panose := some [3, 0, 0, 0, 0, 0, 0, 0, 0, 0] }
    names := {}
    charToGlyph := fun _ => GlyphRes.missing }

/-- A font with no OS/2 table whose `x` and `H` glyphs are measurable: the
glyph data the spec says the extractor falls back to. -/
def deadFallbackFont : Font :=
  { unitsPerEm := 1000
    os2 := none
    hhea := some { ascender := 900, descender := -250 }
    names := {}
    charToGlyph := fun s =>
      if s = "x" then GlyphRes.glyph ("x") (some 500) 600
      else if s = "H" then GlyphRes.glyph ("H") (some 600) 720
      else GlyphRes.missing }

/-- A font for which every glyph lookup throws. -/
def throwingFont : Font :=
  { unitsPerEm := 1000
    glyphCount := none
    charToGlyph := fun _ => GlyphRes.err }

/-- OS/2 weight class 700, no width class, full name "Ultra Condensed". -/
def ultraCondensedFont : Font :=
  { unitsPerEm := 1000
    os2 := some { usWeightClass := some 700 }
    names := { fullName := some "Ultra Condensed" }
    charToGlyph := fun _ => GlyphRes.missing }

/-- OS/2 weight class 700, no width class, full name "My Condensed". -/
def plainCondensedFont : Font :=
  { unitsPerEm := 1000
    os2 := some { usWeightClass := some 700 }
    names := { fullName := some "My Condensed" }
    charToGlyph := fun _ => GlyphRes.missing }

/-! ## Generic helper lemmas -/

theorem dedupTakeNodup {α : Type} [DecidableEq α] (l : List α) (n : ℕ) :
    ((jsSetDedup l).take n).Nodup :=
  List.Sublist.nodup (List.take_sublist n (jsSetDedup l)) (jsSetDedup_nodup l)

theorem clampJN_bounds (q : ℚ) :
    ∃ k : ℤ, clampJN (some q) = some ((k : ℤ) : ℚ) ∧ 0 ≤ k ∧ k ≤ 100 := by
  refine ⟨max 0 (min 100 (jsRound q)), rfl, le_max_left _ _, ?_⟩
  exact max_le (by norm_num) (min_le_left _ _)

theorem traitFinal_bounds (b : ℚ) (hv : ℚ) (k : ℚ) :
    ∃ j : ℤ, traitFinal b (some hv) k = some ((j : ℤ) : ℚ) ∧
      0 ≤ j ∧ j ≤ 100 := by
  unfold traitFinal
  simp only [jnAdd, jnSub, jnMod, Option.map_some]
  exact clampJN_bounds _

theorem heavyTemplate_ne (n : ℤ) (s : String) (h : s.length ≤ 5) :
    "Heavy (" ++ toString n ++ ")" ≠ s := by
  intro he
  have hl := congrArg String.length he
  rw [String.length_append, String.length_append,
    show ("Heavy (" : String).length = 7 from rfl,
    show (")" : String).length = 1 from rfl] at hl
  omega

theorem customTemplate_ne (n : ℤ) (s : String) (h : s.length ≤ 5) :
    "Custom (" ++ toString n ++ ")" ≠ s := by
  intro he
  have hl := congrArg String.length he
  rw [String.length_append, String.length_append,
    show ("Custom (" : String).length = 8 from rfl,
    show (")" : String).length = 1 from rfl] at hl
  omega

theorem append_tail_ne (N t u : String) (ht : t.data ≠ [])
    (hne : t.data.getLast? ≠ u.data.getLast?) : N ++ t ≠ u := by
  intro h
  apply hne
  rw [← h]
  show t.data.getLast? = (N ++ t).data.getLast?
  rw [show (N ++ t).data = N.data ++ t.data from rfl]
  exact (List.getLast?_append_of_ne_nil N.data ht).symm

/-! ## Claim C1 -/

/-- C1: for every pair of successfully analyzed fonts (their x-height
strings parse and their formality scores are numbers), the comparator's
compatibility score equals 50, +10 for differing format strings, +10 for
differing weight labels, exactly one x-height band bonus (15 / 10 / 5 for a
relative difference below 0.1 / 0.2 / 0.3, highest band only), +10 for a
formality gap above 30, clamped to [0, 100]. -/
theorem C1_compatibilityScore_formula (r1 r2 : FontAnalysisResult)
    (x1 x2 q1 q2 : ℚ)
    (hx1 : parseFloat r1.metrics.xHeight = some x1)
    (hx2 : parseFloat r2.metrics.xHeight = some x2)
    (hq1 : r1.personality.formality = some q1)
    (hq2 : r2.personality.formality = some q2) :
    calculateCompatibilityScore r1 r2 =
      claimedCompatibilityScore r1.format r2.format r1.weight r2.weight
        x1 x2 q1 q2 := by
  unfold calculateCompatibilityScore claimedCompatibilityScore
    claimedXHeightBonus
  rw [hx1, hx2, hq1, hq2]
  simp only [jnSub, jnAbs, jnGtB, Option.map_some', decide_eq_true_eq]

/-- Witness for C1 at a concrete pair of analyzed-style records. -/
theorem C1_compatibilityScore_formula_witness :
    parseFloat (sampleResult ("A") ("TrueType") ("Bold (700)") ("0.50 em")
      (some 80)).metrics.xHeight = some (1/2) ∧
    calculateCompatibilityScore
      (sampleResult ("A") ("TrueType") ("Bold (700)") ("0.50 em") (some 80))
      (sampleResult ("B") ("OpenType/CFF") ("Regular (400)") ("0.54 em")
        (some 40)) =
    claimedCompatibilityScore ("TrueType") ("OpenType/CFF") ("Bold (700)")
      ("Regular (400)") (1/2) (27/50) 80 40 := by
  have hx1 : parseFloat (sampleResult ("A") ("TrueType") ("Bold (700)")
      ("0.50 em") (some 80)).metrics.xHeight = some (1/2) := by
    simp [sampleResult, sampleMetrics, parseFloat, parseDigitsAux]
    norm_num
  have hx2 : parseFloat (sampleResult ("B") ("OpenType/CFF")
      ("Regular (400)") ("0.54 em") (some 40)).metrics.xHeight =
      some (27/50) := by
    simp [sampleResult, sampleMetrics, parseFloat, parseDigitsAux]
    norm_num
  exact ⟨hx1, C1_compatibilityScore_formula _ _ _ _ _ _ hx1 hx2 rfl rfl⟩

/-! ## Claim C10 -/

/-- C10 counterexample: two numerically equal parseable metric strings do
not report `"0.0% smaller"` — the `Math.abs` coercion on the fixed string
drops the trailing `.0`, so the code reports `"0% smaller"`. -/
theorem C10_identicalValues_counterexample :
    parseFloat ("0.50 em") = some (1/2) ∧
    calculateDifference ("0.50 em") ("0.50 em") = "0% smaller" ∧
    ("0% smaller" : String) ≠ "0.0% smaller" := by
  refine ⟨?_, ?_, by decide⟩
  · simp [parseFloat, parseDigitsAux]
    norm_num
  · simp [calculateDifference, parseFloat, parseDigitsAux]
    norm_num [jsRound, fmtTenths]
    decide

/-- C10 as amended: for parseable pairs the result always has the
percentage form `N ++ "% larger"` or `N ++ "% smaller"`; numerically equal
values with a non-zero primary value report `"0% smaller"` (not
`"0.0% smaller"`); and the `"Identical"` / `"Different"` wording is never
produced when both values parse. -/
theorem calcDiff_bothSome (v1 v2 : String) (n1 n2 : ℚ)
    (h1 : parseFloat v1 = some n1) (h2 : parseFloat v2 = some n2) :
    calculateDifference v1 v2 =
      if n1 = 0 then
        if n1 - n2 = 0 then "NaN" ++ "% smaller"
        else if n1 - n2 > 0 then "Infinity" ++ "% larger"
        else "Infinity" ++ "% smaller"
      else
        if n1 - n2 > 0 then
          fmtTenths (jsRound ((n1 - n2) / n1 * 100 * 10)).natAbs ++ "% larger"
        else
          fmtTenths (jsRound ((n1 - n2) / n1 * 100 * 10)).natAbs ++
            "% smaller" := by
  unfold calculateDifference
  rw [h1, h2]

theorem C10_difference_format (v1 v2 : String) (n1 n2 : ℚ)
    (h1 : parseFloat v1 = some n1) (h2 : parseFloat v2 = some n2) :
    (∃ N : String, calculateDifference v1 v2 = N ++ "% larger" ∨
      calculateDifference v1 v2 = N ++ "% smaller") ∧
    (n1 = n2 → n1 ≠ 0 → calculateDifference v1 v2 = "0% smaller") ∧
    calculateDifference v1 v2 ≠ "Identical" ∧
    calculateDifference v1 v2 ≠ "Different" := by
  rw [calcDiff_bothSome v1 v2 n1 n2 h1 h2]
  have hform : ∃ N : String,
      (if n1 = 0 then
        if n1 - n2 = 0 then "NaN" ++ "% smaller"
        else if n1 - n2 > 0 then "Infinity" ++ "% larger"
        else "Infinity" ++ "% smaller"
      else
        if n1 - n2 > 0 then
          fmtTenths (jsRound ((n1 - n2) / n1 * 100 * 10)).natAbs ++ "% larger"
        else
          fmtTenths (jsRound ((n1 - n2) / n1 * 100 * 10)).natAbs ++
            "% smaller") = N ++ "% larger" ∨
      (if n1 = 0 then
        if n1 - n2 = 0 then "NaN" ++ "% smaller"
        else if n1 - n2 > 0 then "Infinity" ++ "% larger"
        else "Infinity" ++ "% smaller"
      else
        if n1 - n2 > 0 then
          fmtTenths (jsRound ((n1 - n2) / n1 * 100 * 10)).natAbs ++ "% larger"
        else
          fmtTenths (jsRound ((n1 - n2) / n1 * 100 * 10)).natAbs ++
            "% smaller") = N ++ "% smaller" := by
    split_ifs
    · exact ⟨"NaN", Or.inr rfl⟩
    · exact ⟨"Infinity", Or.inl rfl⟩
    · exact ⟨"Infinity", Or.inr rfl⟩
    · exact ⟨_, Or.inl rfl⟩
    · exact ⟨_, Or.inr rfl⟩
  refine ⟨hform, ?_, ?_, ?_⟩
  · intro he hne
    subst he
    rw [if_neg hne]
    simp only [sub_self, zero_div, zero_mul, gt_iff_lt, lt_self_iff_false,
      if_false]
    norm_num [jsRound, fmtTenths]
    decide
  · rcases hform with ⟨N, h | h⟩ <;> rw [h]
    · exact append_tail_ne _ _ _ (by decide) (by decide)
    · exact append_tail_ne _ _ _ (by decide) (by decide)
  · rcases hform with ⟨N, h | h⟩ <;> rw [h]
    · exact append_tail_ne _ _ _ (by decide) (by decide)
    · exact append_tail_ne _ _ _ (by decide) (by decide)

/-- Witness for C10 at a concrete parseable pair. -/
theorem C10_difference_format_witness :
    parseFloat ("0.60 em") = some (3/5) ∧
    ((∃ N : String,
      calculateDifference ("0.60 em") ("0.50 em") = N ++ "% larger" ∨
      calculateDifference ("0.60 em") ("0.50 em") = N ++ "% smaller") ∧
    ((3 : ℚ)/5 = 1/2 → (3 : ℚ)/5 ≠ 0 →
      calculateDifference ("0.60 em") ("0.50 em") = "0% smaller") ∧
    calculateDifference ("0.60 em") ("0.50 em") ≠ "Identical" ∧
    calculateDifference ("0.60 em") ("0.50 em") ≠ "Different") := by
  have h1 : parseFloat ("0.60 em") = some (3/5) := by
    simp [parseFloat, parseDigitsAux]
    norm_num
  have h2 : parseFloat ("0.50 em") = some (1/2) := by
    simp [parseFloat, parseDigitsAux]
    norm_num
  exact ⟨h1, C10_difference_format ("0.60 em") ("0.50 em") (3/5) (1/2) h1 h2⟩

/-! ## Claim C2 -/

/-- C2 counterexample: on a metrics record whose numeric fields do not
parse, the jitter hash of the personality scorer is `NaN` and every trait
comes out `NaN` (modelled `none`) — not an integer in [0, 100].  The claim
holds only for metrics whose numeric fields parse. -/
theorem C2_degenerateMetrics_counterexample :
    parseFloat degenerateMetrics.xHeight = none ∧
    (analyzeFontPersonality ("serif") degenerateMetrics true).formality =
      none := by
  have hx : parseFloat degenerateMetrics.xHeight = none := by decide
  refine ⟨hx, ?_⟩
  have hh : personalityHash degenerateMetrics = none := by
    simp [personalityHash, jnMul, jnAdd, jnRound, jnAbs, jnMod, hx]
  show traitFinal (personalityBase ("serif") degenerateMetrics).1
    (personalityHash degenerateMetrics) 0 = none
  rw [hh]
  rfl

/-- C2 as amended: for every style label and every metrics record whose
four numeric fields parse as numbers, all six personality traits are
integers in [0, 100]; and for every pair of result records the
compatibility score (an integer by construction) lies in [0, 100]. -/
theorem C2_scores_in_range (style : String) (m : MetricsRec) (coin : Bool)
    (x c a d : ℚ)
    (hx : parseFloat m.xHeight = some x)
    (hc : parseFloat m.capHeight = some c)
    (ha : parseFloat m.ascender = some a)
    (hd : parseFloat m.descender = some d) :
    ((∃ k : ℤ, (analyzeFontPersonality style m coin).formality =
        some ((k : ℤ) : ℚ) ∧ 0 ≤ k ∧ k ≤ 100) ∧
     (∃ k : ℤ, (analyzeFontPersonality style m coin).approachability =
        some ((k : ℤ) : ℚ) ∧ 0 ≤ k ∧ k ≤ 100) ∧
     (∃ k : ℤ, (analyzeFontPersonality style m coin).gentleness =
        some ((k : ℤ) : ℚ) ∧ 0 ≤ k ∧ k ≤ 100) ∧
     (∃ k : ℤ, (analyzeFontPersonality style m coin).sophistication =
        some ((k : ℤ) : ℚ) ∧ 0 ≤ k ∧ k ≤ 100) ∧
     (∃ k : ℤ, (analyzeFontPersonality style m coin).traditionality =
        some ((k : ℤ) : ℚ) ∧ 0 ≤ k ∧ k ≤ 100) ∧
     (∃ k : ℤ, (analyzeFontPersonality style m coin).playfulness =
        some ((k : ℤ) : ℚ) ∧ 0 ≤ k ∧ k ≤ 100)) ∧
    (∀ r1 r2 : FontAnalysisResult,
      0 ≤ calculateCompatibilityScore r1 r2 ∧
      calculateCompatibilityScore r1 r2 ≤ 100) := by
  have hh : ∃ hv : ℚ, personalityHash m = some hv := by
    unfold personalityHash
    rw [hx, hc, ha, hd]
    exact ⟨_, rfl⟩
  obtain ⟨hv, hh⟩ := hh
  constructor
  · refine ⟨?_, ?_, ?_, ?_, ?_, ?_⟩ <;>
      · show ∃ k : ℤ, traitFinal _ (personalityHash m) _ = _ ∧ _
        rw [hh]
        exact traitFinal_bounds _ _ _
  · intro r1 r2
    show 0 ≤ max 0 (min 100 _) ∧ max 0 (min 100 _) ≤ 100
    exact ⟨le_max_left _ _, max_le (by norm_num) (min_le_left _ _)⟩

/-- Witness for C2 at a concrete parseable metrics record. -/
theorem C2_scores_in_range_witness :
    parseFloat (sampleMetrics ("0.50 em")).xHeight = some (1/2) ∧
    (∃ k : ℤ, (analyzeFontPersonality ("serif") (sampleMetrics ("0.50 em"))
      true).formality = some ((k : ℤ) : ℚ) ∧ 0 ≤ k ∧ k ≤ 100) := by
  have hx : parseFloat (sampleMetrics ("0.50 em")).xHeight = some (1/2) := by
    simp [sampleMetrics, parseFloat, parseDigitsAux]
    norm_num
  have hc : parseFloat (sampleMetrics ("0.50 em")).capHeight =
      some (7/10) := by
    simp [sampleMetrics, parseFloat, parseDigitsAux]
    norm_num
  have ha : parseFloat (sampleMetrics ("0.50 em")).ascender =
      some (4/5) := by
    simp [sampleMetrics, parseFloat, parseDigitsAux]
    norm_num
  have hd : parseFloat (sampleMetrics ("0.50 em")).descender =
      some (1/5) := by
    simp [sampleMetrics, parseFloat, parseDigitsAux]
    norm_num
  exact ⟨hx, (C2_scores_in_range ("serif") (sampleMetrics ("0.50 em")) true
    (1/2) (7/10) (4/5) (1/5) hx hc ha hd).1.1⟩

/-! ## Claim C3 -/

/-- The recommendation generator reads only the trait fields of the
personality record, never the description. -/
theorem generateRecommendations_descr (style : String) (m : MetricsRec)
    (fo ap ge so tr pl : JN) (d1 d2 : String) :
    generateRecommendations style m
      ⟨fo, ap, ge, so, tr, pl, d1⟩ =
    generateRecommendations style m
      ⟨fo, ap, ge, so, tr, pl, d2⟩ := rfl

/-- C3: analyzing the same parsed font twice yields identical results in
every field except possibly `personality.emotionalDescription`, whose
contrast-clause-versus-terminal-clause choice is the single unseeded random
draw (modelled by the coin arguments `b1`, `b2`). -/
theorem C3_deterministic_but_description (file : FileInfo) (f : Font)
    (b1 b2 : Bool) :
    (analyzeFont file f b1).name = (analyzeFont file f b2).name ∧
    (analyzeFont file f b1).size = (analyzeFont file f b2).size ∧
    (analyzeFont file f b1).type = (analyzeFont file f b2).type ∧
    (analyzeFont file f b1).lastModified =
      (analyzeFont file f b2).lastModified ∧
    (analyzeFont file f b1).format = (analyzeFont file f b2).format ∧
    (analyzeFont file f b1).version = (analyzeFont file f b2).version ∧
    (analyzeFont file f b1).copyright = (analyzeFont file f b2).copyright ∧
    (analyzeFont file f b1).manufacturer =
      (analyzeFont file f b2).manufacturer ∧
    (analyzeFont file f b1).style = (analyzeFont file f b2).style ∧
    (analyzeFont file f b1).metrics = (analyzeFont file f b2).metrics ∧
    (analyzeFont file f b1).personality.formality =
      (analyzeFont file f b2).personality.formality ∧
    (analyzeFont file f b1).personality.approachability =
      (analyzeFont file f b2).personality.approachability ∧
    (analyzeFont file f b1).personality.gentleness =
      (analyzeFont file f b2).personality.gentleness ∧
    (analyzeFont file f b1).personality.sophistication =
      (analyzeFont file f b2).personality.sophistication ∧
    (analyzeFont file f b1).personality.traditionality =
      (analyzeFont file f b2).personality.traditionality ∧
    (analyzeFont file f b1).personality.playfulness =
      (analyzeFont file f b2).personality.playfulness ∧
    (analyzeFont file f b1).recommendations =
      (analyzeFont file f b2).recommendations ∧
    (analyzeFont file f b1).characterSet =
      (analyzeFont file f b2).characterSet ∧
    (analyzeFont file f b1).weight = (analyzeFont file f b2).weight ∧
    (analyzeFont file f b1).width = (analyzeFont file f b2).width :=
  ⟨rfl, rfl, rfl, rfl, rfl, rfl, rfl, rfl, rfl, rfl, rfl, rfl, rfl, rfl,
   rfl, rfl,
   generateRecommendations_descr (determineFontStyle f)
     (calculateFontMetrics f) _ _ _ _ _ _ _ _,
   rfl, rfl, rfl⟩

/-! ## Claim C4 -/

/-- C4 counterexample: a font with PANOSE family type 3 whose family name
contains "sans" is classified `"sans-serif"`, not `"script"` — the name
heuristics run before the PANOSE check, so the claim's "regardless of the
content of the name strings" fails. -/
theorem C4_panoseScript_counterexample :
    (∃ o : OS2Table, panoseScriptSansFont.os2 = some o ∧
      ∃ p : List ℕ, o.panose = some p ∧ p[0]? = some 3) ∧
    determineFontStyle panoseScriptSansFont = "sans-serif" ∧
    determineFontStyle panoseScriptSansFont ≠ "script" := by
  refine ⟨⟨{ panose := some [3, 0, 0, 0, 0, 0, 0, 0, 0, 0] }, rfl,
    [3, 0, 0, 0, 0, 0, 0, 0, 0, 0], rfl, by decide⟩, by decide, by decide⟩

/-- C4 as amended: a font with PANOSE family type 3 is classified
`"script"` provided none of the name-keyword heuristics fires. -/
theorem C4_panose3_script (f : Font) (o : OS2Table) (p : List ℕ)
    (h1 : f.os2 = some o) (h2 : o.panose = some p)
    (h3 : p[0]? = some 3)
    (h4 : nameStyleRuleFires f = false) :
    determineFontStyle f = "script" := by
  unfold nameStyleRuleFires at h4
  simp only [Bool.or_eq_false_iff] at h4
  obtain ⟨⟨⟨⟨⟨⟨⟨⟨⟨⟨⟨⟨h5, h6⟩, h7⟩, h8⟩, h9⟩, h10⟩, h11⟩, h12⟩, h13⟩,
    h14⟩, h15⟩, h16⟩, h17⟩ := h4
  unfold determineFontStyle
  simp only [h5, h6, h7, h8, h9, h10, h11, h12, h13, h14, h15, h16, h17,
    Bool.or_self, Bool.or_false, Bool.false_or, if_false, ite_false]
  simp [styleFromTables, stylePanose, h1, h2, h3]

/-- Witness for C4 at a font with PANOSE family type 3 and no style
keyword in its names. -/
theorem C4_panose3_script_witness :
    nameStyleRuleFires panoseScriptPlainFont = false ∧
    determineFontStyle panoseScriptPlainFont = "script" :=
  ⟨by decide,
   C4_panose3_script panoseScriptPlainFont _ _ rfl rfl (by decide)
     (by decide)⟩

/-! ## Claim C5 -/

theorem tableValue_ne_zero (ov : Option ℤ) (upem dflt : ℚ) (hu : upem ≠ 0)
    (hd : dflt ≠ 0) :
    (if jsTruthyInt ov then ((ov.getD 0 : ℤ) : ℚ) / upem else dflt) ≠ 0 := by
  split_ifs with ht
  · rcases ov with _ | v
    · simp [jsTruthyInt] at ht
    · simp only [jsTruthyInt, bne_iff_ne, ne_eq, decide_not] at ht
      simp only [Option.getD_some]
      exact div_ne_zero (Int.cast_ne_zero.mpr (by simpa using ht)) hu
  · exact hd

theorem tableAbsValue_ne_zero (ov : Option ℤ) (upem dflt : ℚ) (hu : upem ≠ 0)
    (hd : dflt ≠ 0) :
    (if jsTruthyInt ov then |((ov.getD 0 : ℤ) : ℚ)| / upem else dflt) ≠ 0 := by
  split_ifs with ht
  · rcases ov with _ | v
    · simp [jsTruthyInt] at ht
    · simp only [jsTruthyInt, bne_iff_ne, ne_eq, decide_not] at ht
      simp only [Option.getD_some]
      exact div_ne_zero (abs_ne_zero.mpr
        (Int.cast_ne_zero.mpr (by simpa using ht))) hu
  · exact hd

theorem xAfterTable_ne_zero (f : Font) (h : f.unitsPerEm ≠ 0) :
    xAfterTable f ≠ 0 := by
  unfold xAfterTable
  rcases f.os2 with _ | o
  · norm_num
  · exact tableValue_ne_zero o.sxHeight f.unitsPerEm (1/2) h (by norm_num)

theorem capAfterTable_ne_zero (f : Font) (h : f.unitsPerEm ≠ 0) :
    capAfterTable f ≠ 0 := by
  unfold capAfterTable
  rcases f.os2 with _ | o
  · norm_num
  · exact tableValue_ne_zero o.sCapHeight f.unitsPerEm (7/10) h (by norm_num)

theorem ascAfterTable_ne_zero (f : Font) (h : f.unitsPerEm ≠ 0) :
    ascAfterTable f ≠ 0 := by
  unfold ascAfterTable
  rcases f.os2 with _ | o
  · norm_num
  · exact tableValue_ne_zero o.sTypoAscender f.unitsPerEm (8/10) h
      (by norm_num)

theorem descAfterTable_ne_zero (f : Font) (h : f.unitsPerEm ≠ 0) :
    descAfterTable f ≠ 0 := by
  unfold descAfterTable
  rcases f.os2 with _ | o
  · norm_num
  · exact tableAbsValue_ne_zero o.sTypoDescender f.unitsPerEm (2/10) h
      (by norm_num)

/-- C5 fails on the code: because every metric is initialized to a nonzero
default (0.5 / 0.7 / 0.8 / 0.2) and a truthy table value divided by a
nonzero units-per-em is nonzero, the `=== 0` guards in front of the glyph
bounding-box and `hhea` fallbacks can never fire.  The extracted metrics
are always the table value or the default, independent of the font's glyph
data — contradicting the claimed table → glyph → default fallback order
(which the code's own comments describe). -/
theorem C5_glyph_fallback_unreachable (f : Font) (h : f.unitsPerEm ≠ 0) :
    calculateFontMetrics f =
      { xHeight := toFixed2 (xAfterTable f) ++ " em"
        capHeight := toFixed2 (capAfterTable f) ++ " em"
        ascender := toFixed2 (ascAfterTable f) ++ " em"
        descender := toFixed2 (descAfterTable f) ++ " em"
        contrast := estimateContrast f
        strokeTerminals := determineStrokeTerminals f
        shape := determineShape (xAfterTable f) (capAfterTable f)
          (ascAfterTable f) (descAfterTable f) } := by
  unfold calculateFontMetrics glyphFallback hheaAscFallback hheaDescFallback
  rw [if_neg (xAfterTable_ne_zero f h), if_neg (capAfterTable_ne_zero f h),
    if_neg (ascAfterTable_ne_zero f h), if_neg (descAfterTable_ne_zero f h)]

/-- Witness for C5: a font with no OS/2 table but a measurable `x` glyph
(yMax 600 at 1000 units per em, i.e. 0.60 em).  The extractor returns the
default `"0.50 em"`, not the glyph measurement `"0.60 em"`. -/
theorem C5_glyph_fallback_unreachable_witness :
    deadFallbackFont.unitsPerEm ≠ 0 ∧
    (calculateFontMetrics deadFallbackFont).xHeight = "0.50 em" ∧
    toFixed2 (600 / 1000 : ℚ) ++ " em" = "0.60 em" ∧
    (calculateFontMetrics deadFallbackFont).xHeight ≠ "0.60 em" := by
  have hu : deadFallbackFont.unitsPerEm ≠ 0 := by
    norm_num [deadFallbackFont]
  have h := C5_glyph_fallback_unreachable deadFallbackFont hu
  have hx : xAfterTable deadFallbackFont = 1/2 := by
    simp [xAfterTable, deadFallbackFont]
  have hfix : toFixed2 (1/2 : ℚ) = "0.50" := by
    norm_num [toFixed2, jsRound, pad2]
    decide
  refine ⟨hu, ?_, ?_, ?_⟩
  · rw [h]
    show toFixed2 (xAfterTable deadFallbackFont) ++ " em" = "0.50 em"
    rw [hx, hfix]
    decide
  · have : (600 / 1000 : ℚ) = 3/5 := by norm_num
    rw [this]
    have : toFixed2 (3/5 : ℚ) = "0.60" := by
      norm_num [toFixed2, jsRound, pad2]
      decide
    rw [this]
    decide
  · rw [h]
    show toFixed2 (xAfterTable deadFallbackFont) ++ " em" ≠ "0.60 em"
    rw [hx, hfix]
    decide

/-! ## Claim C6 -/

theorem weightFromName_shape (f : Font) :
    weightFromName f ∈
      (["Thin (100)", "Extra Light (200)", "Light (300)", "Regular (400)",
        "Medium (500)", "Semi Bold (600)", "Bold (700)", "Extra Bold (800)",
        "Black (900)"] : List String) := by
  unfold weightFromName
  dsimp only
  split_ifs <;> decide

theorem weightLabelFromClass_shape (wc : ℤ) :
    weightLabelFromClass wc ∈
      (["Thin (100)", "Extra Light (200)", "Light (300)", "Regular (400)",
        "Medium (500)", "Semi Bold (600)", "Bold (700)", "Extra Bold (800)",
        "Black (900)"] : List String) ∨
    weightLabelFromClass wc = "Heavy (" ++ toString wc ++ ")" := by
  unfold weightLabelFromClass
  split_ifs <;> first
    | exact Or.inr rfl
    | exact Or.inl (by decide)

/-- Every value `determineFontWeight` can return: one of the nine canonical
labels, or the `"Heavy (N)"` template for a class above 900. -/
theorem determineFontWeight_shape (f : Font) :
    determineFontWeight f ∈
      (["Thin (100)", "Extra Light (200)", "Light (300)", "Regular (400)",
        "Medium (500)", "Semi Bold (600)", "Bold (700)", "Extra Bold (800)",
        "Black (900)"] : List String) ∨
    ∃ n : ℤ, determineFontWeight f = "Heavy (" ++ toString n ++ ")" := by
  unfold determineFontWeight
  rcases f.os2 with _ | o
  · exact Or.inl (weightFromName_shape f)
  · dsimp only
    split_ifs
    · rcases weightLabelFromClass_shape (o.usWeightClass.getD 0) with h | h
      · exact Or.inl h
      · exact Or.inr ⟨_, h⟩
    · exact Or.inl (weightFromName_shape f)

/-- C6 fails on the code: `determineFontWeight` always returns a label with
a parenthesized class number (e.g. `"Bold (700)"`), never the bare strings
`"Bold"` / `"Heavy"` / `"Black"` that `generatePairingRecommendations`
compares against, so the weight-preference branch is dead and the
formality comparison always decides the headings/body split.  At the
concrete failing input the Bold-weight font is assigned to body text. -/
theorem C6_weight_branch_dead :
    (∀ f : Font, determineFontWeight f ≠ "Bold" ∧
      determineFontWeight f ≠ "Heavy" ∧ determineFontWeight f ≠ "Black") ∧
    (sampleResult ("BoldFont") ("TrueType") ("Bold (700)") ("0.50 em")
      (some 40)).weight = "Bold (700)" ∧
    (generatePairingRecommendations
      (sampleResult ("BoldFont") ("TrueType") ("Bold (700)") ("0.50 em")
        (some 40))
      (sampleResult ("RegFont") ("TrueType") ("Regular (400)") ("0.50 em")
        (some 60))).headingsBody =
      "RegFont for headings, BoldFont for body text" := by
  refine ⟨?_, by decide, by decide⟩
  intro f
  refine ⟨?_, ?_, ?_⟩ <;>
  · rcases determineFontWeight_shape f with h | ⟨n, h⟩
    · simp only [List.mem_cons, List.not_mem_nil, or_false] at h
      rcases h with h | h | h | h | h | h | h | h | h <;> rw [h] <;> decide
    · rw [h]
      exact heavyTemplate_ne _ _ (by decide)

/-! ## Claim C7 -/

/-- C7: the three recommendation lists are deduplicated (set semantics,
first occurrence wins) before being capped at 6 / 6 / 4 entries, so for
every input they contain no duplicates and respect their caps. -/
theorem C7_recommendation_caps (style : String) (m : MetricsRec)
    (p : Personality) :
    (generateRecommendations style m p).recommendedUses.Nodup ∧
    (generateRecommendations style m p).recommendedUses.length ≤ 6 ∧
    (generateRecommendations style m p).notRecommendedUses.Nodup ∧
    (generateRecommendations style m p).notRecommendedUses.length ≤ 6 ∧
    (generateRecommendations style m p).fontPairings.Nodup ∧
    (generateRecommendations style m p).fontPairings.length ≤ 4 :=
  ⟨dedupTakeNodup _ _, List.length_take_le _ _,
   dedupTakeNodup _ _, List.length_take_le _ _,
   dedupTakeNodup _ _, List.length_take_le _ _⟩

/-! ## Claim C8 -/

/-- C8: when every glyph lookup throws, each of the four probed Unicode
ranges reports as not covered (the per-character errors each count only as
"not covered") and the surveyor itself returns normally; when the
surveyor-internal glyph-count access fails, the canned record with all five
descriptors `"Unknown"` is returned. -/
theorem C8_surveyor_error_tolerance (f : Font)
    (herr : ∀ s : String, f.charToGlyph s = GlyphRes.err) :
    (hasCharacterRange f 0x20 0x7F = false ∧
     hasCharacterRange f 0xA0 0xFF = false ∧
     hasCharacterRange f 0x100 0x17F = false ∧
     hasCharacterRange f 0x180 0x24F = false) ∧
    (f.glyphCount = none → analyzeCharacterSet f = defaultCharacterSetInfo) := by
  constructor
  · have hcount : ∀ a b : ℕ, ((List.range' a b).filter
        (fun c => resolvesToGlyph f (String.mk [Char.ofNat c]))).length = 0 := by
      intro a b
      simp [resolvesToGlyph, herr]
    refine ⟨?_, ?_, ?_, ?_⟩ <;>
      · unfold hasCharacterRange
        dsimp only
        rw [hcount]
        decide
  · intro hg
    unfold analyzeCharacterSet
    rw [hg]

/-- Witness for C8 at a font whose every lookup throws and whose
glyph-count access fails. -/
theorem C8_surveyor_error_tolerance_witness :
    hasCharacterRange throwingFont 0x20 0x7F = false ∧
    analyzeCharacterSet throwingFont = defaultCharacterSetInfo :=
  ⟨(C8_surveyor_error_tolerance throwingFont (fun _ => rfl)).1.1,
   (C8_surveyor_error_tolerance throwingFont (fun _ => rfl)).2 rfl⟩

/-! ## Claim C9 -/

/-- C9 counterexample: a font with OS/2 weight class 700 and full name
"Ultra Condensed" — the name contains "Condensed", yet the width heuristic
returns `"Ultra Condensed (1)"`, not `"Condensed (3)"`, because the more
specific keywords are checked first. -/
theorem C9_condensed_counterexample :
    (∃ o : OS2Table, ultraCondensedFont.os2 = some o ∧
      o.usWeightClass = some 700 ∧ o.usWidthClass = none) ∧
    jsIncludes (ultraCondensedFont.names.fullName.getD (""))
      ("Condensed") = true ∧
    determineFontWeight ultraCondensedFont = "Bold (700)" ∧
    determineFontWidth ultraCondensedFont = "Ultra Condensed (1)" ∧
    determineFontWidth ultraCondensedFont ≠ "Condensed (3)" := by
  refine ⟨⟨{ usWeightClass := some 700 }, rfl, rfl, rfl⟩,
    by decide, by decide, by decide, by decide⟩

/-- C9 as amended: OS/2 weight class 700 yields `"Bold (700)"`; and when
the width class is absent and the lower-cased name contains "condensed"
but not "ultra condensed", "extra condensed" or "semi", the name heuristic
yields `"Condensed (3)"`. -/
theorem C9_bold700_condensed (f : Font) (o : OS2Table)
    (h1 : f.os2 = some o) (h2 : o.usWeightClass = some 700)
    (h3 : o.usWidthClass = none)
    (h4 : jsIncludes (combinedWeightName f) ("condensed") = true)
    (h5 : jsIncludes (combinedWeightName f) ("ultra condensed") = false)
    (h6 : jsIncludes (combinedWeightName f) ("extra condensed") = false)
    (h7 : jsIncludes (combinedWeightName f) ("semi") = false) :
    determineFontWeight f = "Bold (700)" ∧
    determineFontWidth f = "Condensed (3)" := by
  constructor
  · unfold determineFontWeight
    rw [h1]
    simp only [h2, jsTruthyInt, Option.getD_some]
    norm_num [weightLabelFromClass]
  · unfold determineFontWidth widthFromName
    rw [h1]
    simp [jsTruthyInt, h3, h4, h5, h6, h7]

/-- Witness for C9 at a font named "My Condensed" with weight class 700. -/
theorem C9_bold700_condensed_witness :
    jsIncludes (combinedWeightName plainCondensedFont) ("condensed") =
      true ∧
    (determineFontWeight plainCondensedFont = "Bold (700)" ∧
     determineFontWidth plainCondensedFont = "Condensed (3)") :=
  ⟨by decide,
   C9_bold700_condensed plainCondensedFont _ rfl rfl rfl (by decide)
     (by decide) (by decide) (by decide)⟩

end FontValidator
